import Mathlib

/-!
Shallow embedding of the booking-reservation core of the Sports-Book
repository (a Next.js + Prisma sports-facility booking platform), together
with theorems settling the specification claims about it.

Conventions of the embedding:
- Timestamps are measured in whole hours since an epoch: the JS
  `new Date(date + "T" + hh + ":00:00")` becomes `24 * date + hh`, and JS
  `Date.prototype.getHours()` becomes `t % 24` (both the route under
  verification and this model only ever construct whole-hour instants).
- The Prisma database is a `DBState` record of lists of rows; each Prisma
  `$transaction` block is one Lean function on `DBState` (atomic step);
  top-level Prisma calls that the source does NOT wrap in a transaction are
  separate Lean functions, composed sequentially, so their intermediate
  states are exposed (they are persistable in the real system).
- A missing JSON field is modelled by `0` / `none`; the handler's JS
  falsiness test `!x` on a number becomes `x = 0`.
- Presentation-only columns (notes, currency, receiptUrl, paymentMethod,
  createdAt, …) are omitted: no claim mentions them.
-/

namespace SportsBook

/-! ## Data model (prisma schema, restricted to the fields the core uses) -/

inductive BookingStatus
  | PENDING
  | CONFIRMED
  | CANCELLED
  | COMPLETED
deriving DecidableEq

inductive PaymentStatus
  | PENDING
  | SUCCEEDED
  | FAILED
  | REFUNDED
deriving DecidableEq

/-- A court row, with its venue's `approved` flag inlined
(the route always reads the court `include: { Venue: true }`). -/
structure Court where
  id : Nat
  venueApproved : Bool
  openTime : Nat
  closeTime : Nat
  pricePerHour : Nat
deriving DecidableEq

structure Booking where
  id : Nat
  userId : Nat
  courtId : Nat
  startTime : Nat
  endTime : Nat
  status : BookingStatus
  idempotencyKey : Option String
  paymentId : Option Nat
deriving DecidableEq

structure Payment where
  id : Nat
  bookingId : Option Nat
  amount : Nat
  status : PaymentStatus
  stripePaymentIntentId : Option String
deriving DecidableEq

structure DBState where
  courts : List Court
  bookings : List Booking
  payments : List Payment
  nextBookingId : Nat
  nextPaymentId : Nat
deriving DecidableEq

/-- JS `Date.prototype.getHours()` on a whole-hour timestamp. -/
def getHours (t : Nat) : Nat := t % 24

/-- Status filter of the conflict query: true iff the status is PENDING or CONFIRMED — the
filter `status: { in: [PENDING, CONFIRMED] }` of the conflict query. -/
def BookingStatus.isActive : BookingStatus → Bool
  | .PENDING => true
  | .CONFIRMED => true
  | _ => false

/-! ## Row lookups (Prisma `findUnique` / `findFirst` on the row lists) -/

def findCourt (cs : List Court) (cid : Nat) : Option Court :=
  cs.find? (fun c => c.id == cid)

def findBooking (bs : List Booking) (bid : Nat) : Option Booking :=
  bs.find? (fun b => b.id == bid)

def findBookingByKey (bs : List Booking) (k : String) : Option Booking :=
  bs.find? (fun b => b.idempotencyKey == some k)

def findPayment (ps : List Payment) (pid : Nat) : Option Payment :=
  ps.find? (fun p => p.id == pid)

def findPaymentByIntent (ps : List Payment) (piId : String) : Option Payment :=
  ps.find? (fun p => p.stripePaymentIntentId == some piId)

/-! ## Reservation endpoint — POST /api/bookings (src/app/api/bookings/route.ts) -/

/-- The request body `{courtId, date, startTime, duration, notes}` plus the
`Idempotency-Key` header and the authenticated user (`token.id`). -/
structure ReserveRequest where
  userId : Nat
  courtId : Nat
  date : Nat
  startTime : Nat
  duration : Nat
  idempotencyKey : Option String
deriving DecidableEq

/-- The failures the handler can produce: `missingFields` is returned
directly with status 400; the rest are `throw new Error(message)` sites
inside the transaction, later mapped by the catch block. -/
inductive BookingError
  | missingFields
  | courtNotFound
  | slotConflict
  | venueNotApproved
  | outsideOperatingHours
deriving DecidableEq

/-- The verbatim message of each thrown `Error` in the route. -/
def BookingError.message : BookingError → String
  | .missingFields => "Missing required booking information"
  | .courtNotFound => "Court not found"
  | .slotConflict => "Time slot conflict: This time slot is already booked"
  | .venueNotApproved => "Venue is not approved for bookings"
  | .outsideOperatingHours => "Booking time is outside court operating hours"

inductive ReserveResult
  | created (booking : Booking) (payment : Payment)
  | alreadyExists (booking : Booking)
  | failed (e : BookingError)
deriving DecidableEq

def ReserveResult.isCreated : ReserveResult → Bool
  | .created _ _ => true
  | _ => false

/-- The `where` clause of the conflict query (route.ts lines 61-74):
same court, `startTime < bookingEndTime`, `endTime > bookingStartTime`,
status in {PENDING, CONFIRMED}. -/
def conflictsWith (courtId bStart bEnd : Nat) (b : Booking) : Bool :=
  b.courtId == courtId && b.startTime < bEnd && b.endTime > bStart
    && b.status.isActive

/-- The Booking row written by `tx.booking.create` (status PENDING), after
the follow-up `tx.booking.update` that back-links `paymentId`. A request
without a client key gets a synthesized unique key, modelled by `none`. -/
def mkBooking (s : DBState) (req : ReserveRequest) (bStart bEnd : Nat) : Booking :=
  { id := s.nextBookingId
    userId := req.userId
    courtId := req.courtId
    startTime := bStart
    endTime := bEnd
    status := .PENDING
    idempotencyKey := req.idempotencyKey
    paymentId := some s.nextPaymentId }

/-- The Payment row written by `tx.payment.create`:
`amount = Number(court.pricePerHour) * duration * 100` (rupees → paisa),
status PENDING. -/
def mkPayment (s : DBState) (req : ReserveRequest) (court : Court) : Payment :=
  { id := s.nextPaymentId
    bookingId := some s.nextBookingId
    amount := court.pricePerHour * req.duration * 100
    status := .PENDING
    stripePaymentIntentId := none }

/-- The committed post-state of a successful reservation transaction. -/
def commitReserve (s : DBState) (req : ReserveRequest) (court : Court)
    (bStart bEnd : Nat) : DBState :=
  { s with
      bookings := s.bookings ++ [mkBooking s req bStart bEnd]
      payments := s.payments ++ [mkPayment s req court]
      nextBookingId := s.nextBookingId + 1
      nextPaymentId := s.nextPaymentId + 1 }

/-- The `$transaction` body of the reservation route (lines 49-142):
court lookup, conflict check, venue-approval check, operating-hours check,
then creation of the Booking (status PENDING), the Payment
(amount = pricePerHour × duration × 100 paisa, status PENDING), and the
back-link `paymentId` on the booking. On a thrown error the transaction
rolls back: the state is returned unchanged. -/
def reserveTx (s : DBState) (req : ReserveRequest) (bStart bEnd : Nat) :
    ReserveResult × DBState :=
  match findCourt s.courts req.courtId with
  | none => (.failed .courtNotFound, s)
  | some court =>
    if (s.bookings.find? (conflictsWith req.courtId bStart bEnd)).isSome then
      (.failed .slotConflict, s)
    else if !court.venueApproved then
      (.failed .venueNotApproved, s)
    else if getHours bStart < court.openTime ∨ getHours bEnd > court.closeTime then
      (.failed .outsideOperatingHours, s)
    else
      (.created (mkBooking s req bStart bEnd) (mkPayment s req court),
        commitReserve s req court bStart bEnd)

/-- The full POST handler: field-presence check (`!courtId || !date ||
startTime === undefined || !duration`, modelled on the numeric fields),
start/end construction (`setHours(getHours(start) + duration)` adds
`duration` hours, rolling over the day), the pre-transaction idempotency
lookup, then the transaction. A booking stored without a client key gets a
synthesized unique key, modelled by `none`. -/
def reserve (s : DBState) (req : ReserveRequest) : ReserveResult × DBState :=
  if req.courtId = 0 ∨ req.duration = 0 then
    (.failed .missingFields, s)
  else
    match req.idempotencyKey with
    | some k =>
      match findBookingByKey s.bookings k with
      | some existing => (.alreadyExists existing, s)
      | none =>
        reserveTx s req (24 * req.date + req.startTime)
          (24 * req.date + req.startTime + req.duration)
    | none =>
      reserveTx s req (24 * req.date + req.startTime)
        (24 * req.date + req.startTime + req.duration)

/-! ## HTTP status mapping of the reservation route (catch block, lines 151-184) -/

/-- True iff the second character list is an initial segment of the first. -/
def charsStartWith : List Char → List Char → Bool
  | _, [] => true
  | [], _ :: _ => false
  | c :: cs, d :: ds => c = d && charsStartWith cs ds

/-- True iff the second character list occurs contiguously in the first. -/
def charsInclude : List Char → List Char → Bool
  | [], sub => sub.isEmpty
  | c :: rest, sub => charsStartWith (c :: rest) sub || charsInclude rest sub

/-- JS `String.prototype.includes`, on the underlying character lists. -/
def strIncludes (s sub : String) : Bool := charsInclude s.toList sub.toList

/-- JS `String.prototype.startsWith`, on the underlying character lists. -/
def strStartsWith (s pre : String) : Bool := charsStartWith s.toList pre.toList

/-- The catch block's status choice for a caught error message: messages
containing "Time slot conflict" or "Unique constraint" → 409, containing
"timeout" (or Prisma code P2024, which arrives with such a message) → 408,
anything else → 500. -/
def catchStatus (msg : String) : Nat :=
  if strIncludes msg "Time slot conflict" then 409
  else if strIncludes msg "Unique constraint" then 409
  else if strIncludes msg "timeout" then 408
  else 500

/-- The catch block's response body: the three recognised categories get a
fixed text; the 500 branch returns the caught error's own message. -/
def catchBody (msg : String) : String :=
  if strIncludes msg "Time slot conflict" then
    "This time slot has been booked by another user. Please select a different time."
  else if strIncludes msg "Unique constraint" then
    "A booking already exists for this time slot."
  else if strIncludes msg "timeout" then
    "Booking request timed out. Please try again."
  else msg

/-- HTTP status of each handler failure: `missingFields` short-circuits to
400 before the try block; every thrown error goes through `catchStatus` on
its message. -/
def httpStatus : BookingError → Nat
  | .missingFields => 400
  | e => catchStatus e.message

/-! ## Row updates (Prisma `update` on the row lists) -/

def updateBookingStatus (bs : List Booking) (bid : Nat) (st : BookingStatus) :
    List Booking :=
  bs.map (fun b => if b.id = bid then { b with status := st } else b)

def updatePaymentStatus (ps : List Payment) (pid : Nat) (st : PaymentStatus) :
    List Payment :=
  ps.map (fun p => if p.id = pid then { p with status := st } else p)

/-! ## Payment confirmation — POST /api/bookings/[id]/payment -/

/-- The status of the Stripe PaymentIntent as reported by
`stripe.paymentIntents.retrieve` (provider-verified, an external input to
the handler): "succeeded", "canceled", or anything else ("processing",
"requires_payment_method", …). -/
inductive StripeStatus
  | succeeded
  | canceled
  | other
deriving DecidableEq

inductive PaymentConfirmResult
  | ok (bookingStatus : BookingStatus) (paymentStatus : PaymentStatus)
  | errNotFound
  | errNoPayment
  | errAlreadyCompleted
  | errInvalidStatus
  | errInvalidIntent
deriving DecidableEq

/-- The payment-confirmation handler. Guards before the transaction:
booking must exist AND belong to the caller (`findUnique` on
`{id, userId}`), have a Payment, and that Payment must not already be
SUCCEEDED. Inside the transaction: the client-supplied `status` must be
"succeeded"/"failed"/"canceled" and the intent id must start with "pi_";
then the statuses actually written are derived solely from the
Stripe-verified intent status — succeeded ↦ (SUCCEEDED, CONFIRMED),
canceled ↦ (FAILED, CANCELLED), anything else ↦ (PENDING, PENDING) — and
the Payment and the Booking are updated in the one transaction. The
handler never reads the booking's current status. -/
def paymentConfirm (s : DBState) (userId bookingId : Nat) (reqStatus : String)
    (paymentIntentId : String) (stripeStatus : StripeStatus) :
    PaymentConfirmResult × DBState :=
  match findBooking s.bookings bookingId with
  | none => (.errNotFound, s)
  | some booking =>
    if booking.userId ≠ userId then (.errNotFound, s)
    else
      match booking.paymentId.bind (findPayment s.payments) with
      | none => (.errNoPayment, s)
      | some payment =>
        if payment.status = .SUCCEEDED then (.errAlreadyCompleted, s)
        else if reqStatus ≠ "succeeded" ∧ reqStatus ≠ "failed" ∧
            reqStatus ≠ "canceled" then
          (.errInvalidStatus, s)
        else if !(strStartsWith paymentIntentId "pi_") then (.errInvalidIntent, s)
        else
          let stPair : PaymentStatus × BookingStatus :=
            match stripeStatus with
            | .succeeded => (.SUCCEEDED, .CONFIRMED)
            | .canceled => (.FAILED, .CANCELLED)
            | .other => (.PENDING, .PENDING)
          (.ok stPair.2 stPair.1,
            { s with
                payments :=
                  (updatePaymentStatus s.payments payment.id stPair.1).map
                    (fun p =>
                      if p.id = payment.id then
                        { p with stripePaymentIntentId := some paymentIntentId }
                      else p)
                bookings := updateBookingStatus s.bookings bookingId stPair.2 })

/-! ## Stripe webhook — POST handler of the webhook route (src/unnamed/part_012) -/

/-- The webhook events the handler reacts to; `paymentIntentFailed` covers
both `payment_intent.payment_failed` and `payment_intent.canceled` (one
switch case). -/
inductive StripeEvent
  | paymentIntentSucceeded (piId : String)
  | paymentIntentFailed (piId : String)
  | chargeRefunded (piId : String)
deriving DecidableEq

/-- The webhook handler. For the two payment-intent events it updates the
Payment (SUCCEEDED / FAILED) and its Booking (CONFIRMED / CANCELLED) in one
transaction, with no check of the booking's current status; if the payment
row is missing, `payment.update` throws and the transaction rolls back
(state unchanged); if the payment has no `bookingId` the booking is left
untouched. `charge.refunded` updates only the Payment to REFUNDED. -/
def stripeWebhook (s : DBState) (ev : StripeEvent) : DBState :=
  match ev with
  | .paymentIntentSucceeded piId =>
    match findPaymentByIntent s.payments piId with
    | none => s
    | some p =>
      match p.bookingId with
      | none =>
        { s with payments := updatePaymentStatus s.payments p.id .SUCCEEDED }
      | some bid =>
        { s with
            payments := updatePaymentStatus s.payments p.id .SUCCEEDED
            bookings := updateBookingStatus s.bookings bid .CONFIRMED }
  | .paymentIntentFailed piId =>
    match findPaymentByIntent s.payments piId with
    | none => s
    | some p =>
      match p.bookingId with
      | none =>
        { s with payments := updatePaymentStatus s.payments p.id .FAILED }
      | some bid =>
        { s with
            payments := updatePaymentStatus s.payments p.id .FAILED
            bookings := updateBookingStatus s.bookings bid .CANCELLED }
  | .chargeRefunded piId =>
    match findPaymentByIntent s.payments piId with
    | none => s
    | some p =>
      { s with payments := updatePaymentStatus s.payments p.id .REFUNDED }

/-! ## User cancellation — POST handler (second document of
src/app/admin/facilities/page.tsx, the booking-cancel route) -/

inductive CancelResult
  | ok
  | errNotFound
  | errAlreadyCancelled
  | errCompleted
  | errWindow
deriving DecidableEq

/-- The first database write of the cancellation handler, a bare
`prisma.booking.update` setting the booking CANCELLED. It is NOT wrapped in
a transaction with the payment update that follows, so its result is a
persistable state of the real system. -/
def cancelUpdateBooking (s : DBState) (bid : Nat) : DBState :=
  { s with bookings := updateBookingStatus s.bookings bid .CANCELLED }

/-- The second database write: if the booking's (pre-fetched) payment has
status SUCCEEDED, a bare `prisma.payment.update` marks it REFUNDED. -/
def cancelUpdatePayment (s : DBState) (payment? : Option Payment) : DBState :=
  match payment? with
  | some p =>
    if p.status = .SUCCEEDED then
      { s with payments := updatePaymentStatus s.payments p.id .REFUNDED }
    else s
  | none => s

/-- The cancellation handler: booking must exist and belong to the caller;
CANCELLED and COMPLETED bookings are rejected; the start must be at least
2 hours away (`booking.startTime < now + 2h` is rejected); then the two
independent writes above run in sequence. -/
def cancelBooking (s : DBState) (userId bookingId now : Nat) :
    CancelResult × DBState :=
  match findBooking s.bookings bookingId with
  | none => (.errNotFound, s)
  | some booking =>
    if booking.userId ≠ userId then (.errNotFound, s)
    else if booking.status = .CANCELLED then (.errAlreadyCancelled, s)
    else if booking.status = .COMPLETED then (.errCompleted, s)
    else if booking.startTime < now + 2 then (.errWindow, s)
    else
      (.ok,
        cancelUpdatePayment (cancelUpdateBooking s bookingId)
          (booking.paymentId.bind (findPayment s.payments)))

/-! ## Payment-intent creation — POST /api/create-payment-intent -/

/-- The create-payment-intent handler: looks up the booking and its
payment; rejects if the payment already SUCCEEDED; otherwise RECOMPUTES the
amount from the court's CURRENT pricePerHour and the booking's duration
(`durationInHours = (end - start)`, `amount = round(price × hours × 100)`),
creates the Stripe intent, and overwrites the Payment's amount,
`stripePaymentIntentId`, and status (kept PENDING). Missing booking /
payment / court leave the state unchanged. -/
def createPaymentIntent (s : DBState) (bookingId : Nat) (piId : String) :
    DBState :=
  match findBooking s.bookings bookingId with
  | none => s
  | some booking =>
    match booking.paymentId.bind (findPayment s.payments) with
    | none => s
    | some payment =>
      if payment.status = .SUCCEEDED then s
      else
        match findCourt s.courts booking.courtId with
        | none => s
        | some court =>
          let amount :=
            court.pricePerHour * (booking.endTime - booking.startTime) * 100
          { s with
              payments :=
                s.payments.map (fun p =>
                  if p.id = payment.id then
                    { p with
                        amount := amount
                        stripePaymentIntentId := some piId
                        status := .PENDING }
                  else p) }

/-! ## Completion sweep — POST handler of src/unnamed/part_006 -/

/-- The sweep's `updateMany`: every booking with status CONFIRMED and
`endTime < now` becomes COMPLETED; the returned count is the number of rows
matched. -/
def completionSweep (s : DBState) (now : Nat) : DBState × Nat :=
  ({ s with
      bookings :=
        s.bookings.map (fun b =>
          if b.status = .CONFIRMED ∧ b.endTime < now then
            { b with status := .COMPLETED }
          else b) },
    (s.bookings.filter (fun b => b.status = .CONFIRMED ∧ b.endTime < now)).length)

/-! ## Court price edit — `tx.court.update` in the owner venue PUT handler
(src/unnamed/part_011, line 478), restricted to the `pricePerHour` field -/

def updateCourtPrice (s : DBState) (cid price : Nat) : DBState :=
  { s with
      courts :=
        s.courts.map (fun c =>
          if c.id = cid then { c with pricePerHour := price } else c) }

/-! ## Invariants -/

/-- The no-double-booking invariant: no two distinct booking rows
(distinct positions in the store) on the same court, both with status in
{PENDING, CONFIRMED}, have overlapping half-open `[start, end)` intervals
(the spec's `overlaps(a, b) = a.start < b.end AND b.start < a.end`). -/
def noDoubleBooking (s : DBState) : Prop :=
  ∀ (i j : Nat), i ≠ j → ∀ (b1 b2 : Booking),
    s.bookings[i]? = some b1 → s.bookings[j]? = some b2 →
    b1.courtId = b2.courtId →
    b1.status.isActive → b2.status.isActive →
    ¬(b1.startTime < b2.endTime ∧ b2.startTime < b1.endTime)

/-! ## Concrete fixtures (the spec's running example: a court open 6-22 at
₹500/hour in an approved venue) -/

def exCourt : Court :=
  { id := 1, venueApproved := true, openTime := 6, closeTime := 22
    pricePerHour := 500 }

def exState : DBState :=
  { courts := [exCourt], bookings := [], payments := []
    nextBookingId := 1, nextPaymentId := 1 }

def exReq (startTime duration : Nat) : ReserveRequest :=
  { userId := 7, courtId := 1, date := 0, startTime := startTime
    duration := duration, idempotencyKey := none }

def exKeyReq : ReserveRequest :=
  { userId := 7, courtId := 1, date := 0, startTime := 10, duration := 2
    idempotencyKey := some "retry-key" }

/-- Same court, but in a venue that has not been approved. -/
def exUnapprovedState : DBState :=
  { courts := [{ exCourt with venueApproved := false }], bookings := []
    payments := [], nextBookingId := 1, nextPaymentId := 1 }

/-- A COMPLETED booking whose SUCCEEDED payment carries Stripe intent
"pi_1" (the state after a confirmed booking's end passes and the sweep
runs). -/
def exCompletedState : DBState :=
  { courts := [exCourt]
    bookings := [{ id := 1, userId := 7, courtId := 1, startTime := 10
                   endTime := 12, status := .COMPLETED
                   idempotencyKey := none, paymentId := some 1 }]
    payments := [{ id := 1, bookingId := some 1, amount := 100000
                   status := .SUCCEEDED, stripePaymentIntentId := some "pi_1" }]
    nextBookingId := 2, nextPaymentId := 2 }

/-- A CONFIRMED booking far in the future with a SUCCEEDED payment —
eligible for user cancellation. -/
def exCancelState : DBState :=
  { courts := [exCourt]
    bookings := [{ id := 1, userId := 7, courtId := 1, startTime := 100
                   endTime := 102, status := .CONFIRMED
                   idempotencyKey := none, paymentId := some 1 }]
    payments := [{ id := 1, bookingId := some 1, amount := 100000
                   status := .SUCCEEDED, stripePaymentIntentId := some "pi_1" }]
    nextBookingId := 2, nextPaymentId := 2 }

/-- The state right after reserving `[10,12)` in the example state: one
PENDING booking (id 1) with one PENDING payment (id 1). -/
def exPendingState : DBState := (reserve exState (exReq 10 2)).2

/-! # Helper lemmas -/

/-- The conflict query predicate unfolded to a proposition. -/
theorem conflictsWith_iff (courtId bStart bEnd : Nat) (b : Booking) :
    conflictsWith courtId bStart bEnd b = true ↔
      b.courtId = courtId ∧ b.startTime < bEnd ∧ bStart < b.endTime ∧
        b.status.isActive = true := by
  simp [conflictsWith, Bool.and_eq_true, and_assoc]

/-- Case analysis of the reservation transaction: either it throws and
rolls back (state unchanged), or the court was found, no conflicting
active booking existed, and it commits the new Booking/Payment pair. -/
theorem reserveTx_cases (s : DBState) (req : ReserveRequest) (bStart bEnd : Nat) :
    ((reserveTx s req bStart bEnd).2 = s ∧
      ∃ e, (reserveTx s req bStart bEnd).1 = .failed e) ∨
    ∃ court, findCourt s.courts req.courtId = some court ∧
      s.bookings.find? (conflictsWith req.courtId bStart bEnd) = none ∧
      reserveTx s req bStart bEnd =
        (.created (mkBooking s req bStart bEnd) (mkPayment s req court),
          commitReserve s req court bStart bEnd) := by
  unfold reserveTx
  split
  · exact Or.inl ⟨rfl, _, rfl⟩
  next court hcourt =>
    split
    · exact Or.inl ⟨rfl, _, rfl⟩
    next hconf =>
      split
      · exact Or.inl ⟨rfl, _, rfl⟩
      · split
        · exact Or.inl ⟨rfl, _, rfl⟩
        · exact Or.inr ⟨court, hcourt,
            Option.not_isSome_iff_eq_none.mp (by simpa using hconf), rfl⟩

/-- Case analysis of the full handler, on the resulting state only. -/
theorem reserve_cases (s : DBState) (req : ReserveRequest) :
    (reserve s req).2 = s ∨
    ∃ court, findCourt s.courts req.courtId = some court ∧
      s.bookings.find? (conflictsWith req.courtId (24 * req.date + req.startTime)
        (24 * req.date + req.startTime + req.duration)) = none ∧
      (reserve s req).2 =
        commitReserve s req court (24 * req.date + req.startTime)
          (24 * req.date + req.startTime + req.duration) := by
  unfold reserve
  split
  · exact Or.inl rfl
  · have htx := reserveTx_cases s req (24 * req.date + req.startTime)
      (24 * req.date + req.startTime + req.duration)
    split
    · split
      · exact Or.inl rfl
      · rcases htx with ⟨h, _⟩ | ⟨court, h1, h2, h3⟩
        · exact Or.inl h
        · exact Or.inr ⟨court, h1, h2, by rw [h3]⟩
    · rcases htx with ⟨h, _⟩ | ⟨court, h1, h2, h3⟩
      · exact Or.inl h
      · exact Or.inr ⟨court, h1, h2, by rw [h3]⟩

/-- Committing a reservation that passed the conflict check preserves the
no-double-booking invariant. -/
theorem commitReserve_noDoubleBooking (s : DBState) (req : ReserveRequest)
    (court : Court) (bStart bEnd : Nat)
    (hinv : noDoubleBooking s)
    (hconf : s.bookings.find? (conflictsWith req.courtId bStart bEnd) = none) :
    noDoubleBooking (commitReserve s req court bStart bEnd) := by
  have hnc := List.find?_eq_none.mp hconf
  unfold noDoubleBooking
  intro i j hij b1 b2 h1 h2 hcourtEq ha1 ha2
  have hbl : (commitReserve s req court bStart bEnd).bookings
      = s.bookings ++ [mkBooking s req bStart bEnd] := rfl
  rw [hbl] at h1 h2
  rcases Nat.lt_trichotomy i s.bookings.length with hi | hi | hi
  · rw [List.getElem?_append_left hi] at h1
    rcases Nat.lt_trichotomy j s.bookings.length with hj | hj | hj
    · -- both pre-existing rows: the invariant of the pre-state
      rw [List.getElem?_append_left hj] at h2
      exact hinv i j hij b1 b2 h1 h2 hcourtEq ha1 ha2
    · -- b2 is the new booking: the conflict check cleared b1
      subst hj
      rw [List.getElem?_concat_length] at h2
      have hb2 : b2 = mkBooking s req bStart bEnd := by
        injection h2 with h; exact h.symm
      subst hb2
      intro ⟨hlt1, hlt2⟩
      exact hnc b1 (List.getElem?_mem h1)
        ((conflictsWith_iff _ _ _ _).mpr ⟨hcourtEq, hlt1, hlt2, ha1⟩)
    · rw [List.getElem?_eq_none (by simpa using hj)] at h2
      exact absurd h2 (by simp)
  · -- b1 is the new booking
    subst hi
    rw [List.getElem?_concat_length] at h1
    have hb1 : b1 = mkBooking s req bStart bEnd := by
      injection h1 with h; exact h.symm
    subst hb1
    rcases Nat.lt_trichotomy j s.bookings.length with hj | hj | hj
    · rw [List.getElem?_append_left hj] at h2
      intro ⟨hlt1, hlt2⟩
      exact hnc b2 (List.getElem?_mem h2)
        ((conflictsWith_iff _ _ _ _).mpr ⟨hcourtEq.symm, hlt2, hlt1, ha2⟩)
    · exact absurd hj.symm hij
    · rw [List.getElem?_eq_none (by simpa using hj)] at h2
      exact absurd h2 (by simp)
  · rw [List.getElem?_eq_none (by simpa using hi)] at h1
    exact absurd h1 (by simp)

/-- A store with at most one booking row vacuously satisfies the
no-double-booking invariant. -/
theorem noDoubleBooking_small (s : DBState) (h : s.bookings.length ≤ 1) :
    noDoubleBooking s := by
  unfold noDoubleBooking
  intro i j hij b1 b2 h1 h2 _ _ _
  have hi : i < s.bookings.length := by
    by_contra hh
    rw [List.getElem?_eq_none (Nat.le_of_not_lt hh)] at h1
    exact absurd h1 (by simp)
  have hj : j < s.bookings.length := by
    by_contra hh
    rw [List.getElem?_eq_none (Nat.le_of_not_lt hh)] at h2
    exact absurd h2 (by simp)
  exact absurd (by omega : i = j) hij

/-- Given the court exists, the transaction reports a slot conflict exactly
when some stored booking satisfies the conflict query. -/
theorem reserveTx_conflict_iff (s : DBState) (req : ReserveRequest)
    (bStart bEnd : Nat) (court : Court)
    (hcourt : findCourt s.courts req.courtId = some court) :
    ((reserveTx s req bStart bEnd).1 = .failed .slotConflict ↔
      ∃ b ∈ s.bookings, conflictsWith req.courtId bStart bEnd b = true) := by
  unfold reserveTx
  split
  next hnone => rw [hcourt] at hnone; cases hnone
  next court' heq =>
    split
    next hc => exact ⟨fun _ => List.find?_isSome.mp hc, fun _ => rfl⟩
    next hc =>
      have hnone : s.bookings.find? (conflictsWith req.courtId bStart bEnd) = none :=
        Option.not_isSome_iff_eq_none.mp (by simpa using hc)
      constructor
      · intro hEq
        exfalso
        revert hEq
        split
        · simp
        · split <;> simp
      · rintro ⟨b, hb, hpb⟩
        exact absurd hpb (List.find?_eq_none.mp hnone b hb)

/-- With present fields and no idempotency hit, the handler is exactly its
transaction. -/
theorem reserve_eq_reserveTx (s : DBState) (req : ReserveRequest)
    (hfields : ¬(req.courtId = 0 ∨ req.duration = 0))
    (hkey : ∀ k, req.idempotencyKey = some k → findBookingByKey s.bookings k = none) :
    reserve s req = reserveTx s req (24 * req.date + req.startTime)
      (24 * req.date + req.startTime + req.duration) := by
  unfold reserve
  rw [if_neg hfields]
  cases hk : req.idempotencyKey with
  | none => rfl
  | some k => simp [hkey k hk]

/-! # Claim theorems -/

/-- C1: the reservation path preserves the no-double-booking invariant —
after any `reserve` call, no two distinct bookings on the same court with
status in {PENDING, CONFIRMED} have overlapping half-open intervals — and
(court found, fields present, no idempotency hit) it returns the Conflict
error exactly when some stored PENDING/CONFIRMED booking on the court
satisfies `existing.start < new.end AND new.start < existing.end`. -/
theorem reserve_no_double_booking (s : DBState) (req : ReserveRequest)
    (hinv : noDoubleBooking s) :
    noDoubleBooking (reserve s req).2 ∧
    (∀ court, findCourt s.courts req.courtId = some court →
      ¬(req.courtId = 0 ∨ req.duration = 0) →
      (∀ k, req.idempotencyKey = some k → findBookingByKey s.bookings k = none) →
      ((reserve s req).1 = .failed .slotConflict ↔
        ∃ b ∈ s.bookings,
          conflictsWith req.courtId (24 * req.date + req.startTime)
            (24 * req.date + req.startTime + req.duration) b = true)) := by
  constructor
  · rcases reserve_cases s req with h | ⟨court, _, hconf, h⟩
    · rw [h]; exact hinv
    · rw [h]; exact commitReserve_noDoubleBooking s req court _ _ hinv hconf
  · intro court hcourt hfields hkey
    rw [reserve_eq_reserveTx s req hfields hkey]
    exact reserveTx_conflict_iff s req _ _ court hcourt

/-- C1 witness: in the spec's example state, booking `[10,12)` succeeds and
a subsequent `[11,13)` request on the same court reports the conflict; the
invariant holds throughout. -/
theorem reserve_no_double_booking_witness :
    noDoubleBooking ((reserve exState (exReq 10 2)).2) ∧
    (reserve (reserve exState (exReq 10 2)).2 (exReq 11 2)).1 =
      .failed .slotConflict := by
  constructor
  · exact (reserve_no_double_booking exState (exReq 10 2)
      (noDoubleBooking_small exState (by decide))).1
  · exact ((reserve_no_double_booking (reserve exState (exReq 10 2)).2
      (exReq 11 2) (noDoubleBooking_small _ (by decide))).2 exCourt
      (by decide) (by decide) (fun k hk => by simp [exReq] at hk)).mpr
      (by decide)

/-- C2: idempotent retry. (a) With present fields and key `k`, if a
booking with key `k` is already stored, `reserve` returns it and leaves
the store unchanged — no new Booking or Payment row. (b) If a first call
with key `k` created a booking, an identical second call returns that same
booking (same identifier), changes nothing, and the total number of
Payment rows after both calls is exactly one more than before the first. -/
theorem reserve_idempotent_retry (s : DBState) (req : ReserveRequest) (k : String)
    (hk : req.idempotencyKey = some k) :
    (∀ b, ¬(req.courtId = 0 ∨ req.duration = 0) →
      findBookingByKey s.bookings k = some b →
      reserve s req = (.alreadyExists b, s)) ∧
    (∀ b p, (reserve s req).1 = .created b p →
      reserve (reserve s req).2 req = (.alreadyExists b, (reserve s req).2) ∧
      (reserve (reserve s req).2 req).2.payments.length
        = s.payments.length + 1) := by
  constructor
  · intro b hfields hfound
    unfold reserve
    rw [if_neg hfields, hk]
    simp [hfound]
  · intro b p hcreated
    have hfields : ¬(req.courtId = 0 ∨ req.duration = 0) := by
      intro hcontra
      have : reserve s req = (.failed .missingFields, s) := by
        unfold reserve; rw [if_pos hcontra]
      rw [this] at hcreated
      cases hcreated
    have hmiss : findBookingByKey s.bookings k = none := by
      cases hfind : findBookingByKey s.bookings k with
      | none => rfl
      | some b0 =>
        exfalso
        have : reserve s req = (.alreadyExists b0, s) := by
          unfold reserve; rw [if_neg hfields, hk]; simp [hfind]
        rw [this] at hcreated
        cases hcreated
    have hred := reserve_eq_reserveTx s req hfields (fun k' hk' => by
      rw [hk] at hk'; cases hk'; exact hmiss)
    rcases reserveTx_cases s req (24 * req.date + req.startTime)
        (24 * req.date + req.startTime + req.duration) with
      ⟨_, e, hfail⟩ | ⟨court, hcourt, hconf, htx⟩
    · rw [hred, hfail] at hcreated
      cases hcreated
    · have hb : b = mkBooking s req (24 * req.date + req.startTime)
          (24 * req.date + req.startTime + req.duration) := by
        rw [hred, htx] at hcreated
        injection hcreated with h1 h2
        exact h1.symm
      subst hb
      have hstate : (reserve s req).2 = commitReserve s req court
          (24 * req.date + req.startTime)
          (24 * req.date + req.startTime + req.duration) := by
        rw [hred, htx]
      have hfind2 : findBookingByKey ((reserve s req).2).bookings k
          = some (mkBooking s req (24 * req.date + req.startTime)
              (24 * req.date + req.startTime + req.duration)) := by
        rw [hstate]
        unfold findBookingByKey at hmiss ⊢
        show (s.bookings ++ [mkBooking s req _ _]).find? _ = _
        rw [List.find?_append, hmiss]
        simp [mkBooking, hk]
      rw [hstate] at hfind2
      have h2nd : reserve (commitReserve s req court
            (24 * req.date + req.startTime)
            (24 * req.date + req.startTime + req.duration)) req =
          (.alreadyExists (mkBooking s req (24 * req.date + req.startTime)
              (24 * req.date + req.startTime + req.duration)),
            commitReserve s req court (24 * req.date + req.startTime)
              (24 * req.date + req.startTime + req.duration)) := by
        unfold reserve
        rw [if_neg hfields, hk]
        simp [hfind2]
      constructor
      · rw [hstate]; exact h2nd
      · rw [hstate, h2nd]
        simp [commitReserve]

/-- C2 witness: reserving `[10,12)` twice with key "retry-key" in the
example state returns the same booking both times; one Payment row total. -/
theorem reserve_idempotent_retry_witness :
    reserve (reserve exState exKeyReq).2 exKeyReq =
      (.alreadyExists (mkBooking exState exKeyReq 10 12),
        (reserve exState exKeyReq).2) ∧
    (reserve (reserve exState exKeyReq).2 exKeyReq).2.payments.length = 1 := by
  have h := (reserve_idempotent_retry exState exKeyReq "retry-key"
      (by decide)).2
    (mkBooking exState exKeyReq 10 12) (mkPayment exState exKeyReq exCourt)
    (by decide)
  exact ⟨h.1, h.2⟩

/-- Looking a booking up after a status update returns the stored row with
only its status replaced. -/
theorem findBooking_updateBookingStatus (bs : List Booking) (bid : Nat)
    (st : BookingStatus) :
    findBooking (updateBookingStatus bs bid st) bid
      = (findBooking bs bid).map (fun b => { b with status := st }) := by
  induction bs with
  | nil => rfl
  | cons hd tl ih =>
    by_cases h : hd.id = bid
    · simp [findBooking, updateBookingStatus, List.find?_cons, h]
    · simp only [findBooking, updateBookingStatus, List.map_cons] at ih ⊢
      rw [if_neg h]
      rw [List.find?_cons_of_neg, List.find?_cons_of_neg]
      · exact ih
      · simp [h]
      · simp [h]

/-- Looking a payment up after a status update returns the stored row with
only its status replaced. -/
theorem findPayment_updatePaymentStatus (ps : List Payment) (pid : Nat)
    (st : PaymentStatus) :
    findPayment (updatePaymentStatus ps pid st) pid
      = (findPayment ps pid).map (fun p => { p with status := st }) := by
  induction ps with
  | nil => rfl
  | cons hd tl ih =>
    by_cases h : hd.id = pid
    · simp [findPayment, updatePaymentStatus, List.find?_cons, h]
    · simp only [findPayment, updatePaymentStatus, List.map_cons] at ih ⊢
      rw [if_neg h]
      rw [List.find?_cons_of_neg, List.find?_cons_of_neg]
      · exact ih
      · simp [h]
      · simp [h]

/-- C3 counterexample: the Stripe webhook moves a COMPLETED booking back to
CONFIRMED — a transition out of the terminal COMPLETED state. A late or
redelivered `payment_intent.succeeded` event for the intent "pi_1" of
booking 1 (COMPLETED, with its SUCCEEDED payment) rewrites the booking's
status to CONFIRMED with no guard on its current status. -/
theorem webhook_escapes_completed :
    (findBooking exCompletedState.bookings 1).map Booking.status
      = some .COMPLETED ∧
    (findBooking (stripeWebhook exCompletedState
        (.paymentIntentSucceeded "pi_1")).bookings 1).map Booking.status
      = some .CONFIRMED := by decide

/-- C3 amended: the user-cancellation path and the completion sweep respect
the state machine (cancellation rejects CANCELLED/COMPLETED bookings
unchanged; the sweep only moves CONFIRMED rows with `end < now` to
COMPLETED), but the payment-confirmation and webhook paths write a status
derived solely from the payment provider, with no guard on the booking's
current status: the webhook can move any booking — including CANCELLED or
COMPLETED ones — to CONFIRMED or CANCELLED, and payment confirmation can
set a booking back to PENDING whenever its payment is not yet SUCCEEDED. -/
theorem booking_state_machine_amended :
    (∀ (s : DBState) (uid bid now : Nat) (b : Booking),
      findBooking s.bookings bid = some b → b.userId = uid →
      (b.status = .CANCELLED →
        cancelBooking s uid bid now = (.errAlreadyCancelled, s)) ∧
      (b.status = .COMPLETED →
        cancelBooking s uid bid now = (.errCompleted, s))) ∧
    (∀ (s : DBState) (now i : Nat),
      ((completionSweep s now).1).bookings[i]? =
        (s.bookings[i]?).map (fun b =>
          if b.status = .CONFIRMED ∧ b.endTime < now then
            { b with status := .COMPLETED }
          else b)) ∧
    (∀ (s : DBState) (piId : String) (p : Payment) (bid : Nat),
      findPaymentByIntent s.payments piId = some p → p.bookingId = some bid →
      findBooking (stripeWebhook s (.paymentIntentSucceeded piId)).bookings bid
        = (findBooking s.bookings bid).map
            (fun b => { b with status := .CONFIRMED }) ∧
      findBooking (stripeWebhook s (.paymentIntentFailed piId)).bookings bid
        = (findBooking s.bookings bid).map
            (fun b => { b with status := .CANCELLED })) ∧
    (∀ (s : DBState) (uid bid : Nat) (piId : String) (b : Booking) (p : Payment),
      findBooking s.bookings bid = some b → b.userId = uid →
      b.paymentId.bind (findPayment s.payments) = some p →
      p.status ≠ .SUCCEEDED → strStartsWith piId "pi_" = true →
      (paymentConfirm s uid bid "succeeded" piId .other).1
        = .ok .PENDING .PENDING ∧
      findBooking (paymentConfirm s uid bid "succeeded" piId .other).2.bookings
          bid = some { b with status := .PENDING }) := by
  refine ⟨?_, ?_, ?_, ?_⟩
  · intro s uid bid now b hfound huid
    constructor
    · intro hst
      simp [cancelBooking, hfound, huid, hst]
    · intro hst
      have hnc : b.status ≠ .CANCELLED := by rw [hst]; intro h; cases h
      simp [cancelBooking, hfound, huid, hst, hnc]
  · intro s now i
    simp [completionSweep, List.getElem?_map]
  · intro s piId p bid hp hbid
    refine ⟨?_, ?_⟩ <;>
      · simp only [stripeWebhook, hp, hbid]
        exact findBooking_updateBookingStatus _ bid _
  · intro s uid bid piId b p hfound huid hpay hpst hpi
    have hreq : ¬((("succeeded" : String) ≠ "succeeded") ∧
        (("succeeded" : String) ≠ "failed") ∧
        (("succeeded" : String) ≠ "canceled")) := by
      intro h
      exact h.1 rfl
    constructor
    · simp [paymentConfirm, hfound, huid, hpay, hpst, hreq, hpi]
    · have hpost : (paymentConfirm s uid bid "succeeded" piId .other).2.bookings
          = updateBookingStatus s.bookings bid .PENDING := by
        simp [paymentConfirm, hfound, huid, hpay, hpst, hreq, hpi]
      rw [hpost, findBooking_updateBookingStatus, hfound]
      rfl

/-- C3 amended witness: cancelling the COMPLETED booking of the example
state is rejected unchanged, while confirming the PENDING booking of
`exPendingState` against a provider intent that is still processing writes
PENDING again. -/
theorem booking_state_machine_amended_witness :
    cancelBooking exCompletedState 7 1 0 = (.errCompleted, exCompletedState) ∧
    (paymentConfirm exPendingState 7 1 "succeeded" "pi_999" .other).1
      = .ok .PENDING .PENDING := by
  constructor
  · exact (booking_state_machine_amended.1 exCompletedState 7 1 0
      { id := 1, userId := 7, courtId := 1, startTime := 10, endTime := 12
        status := .COMPLETED, idempotencyKey := none, paymentId := some 1 }
      (by decide) (by decide)).2 (by decide)
  · exact (booking_state_machine_amended.2.2.2 exPendingState 7 1 "pi_999"
      (mkBooking exState (exReq 10 2) 10 12)
      (mkPayment exState (exReq 10 2) exCourt)
      (by decide) (by decide) (by decide) (by decide) (by decide)).1

/-- The cancellation handler's payment write never touches the bookings. -/
theorem cancelUpdatePayment_bookings (s : DBState) (x : Option Payment) :
    (cancelUpdatePayment s x).bookings = s.bookings := by
  unfold cancelUpdatePayment
  split
  · split <;> rfl
  · rfl

/-- C4 counterexample: the cancellation handler performs its Booking update
and its Payment update as two separate top-level calls (no transaction);
the state after the first call alone — persistable in the real system —
has booking 1 CANCELLED while its SUCCEEDED payment is not yet REFUNDED. -/
theorem cancel_not_atomic :
    (cancelBooking exCancelState 7 1 10).1 = .ok ∧
    (cancelBooking exCancelState 7 1 10).2 =
      cancelUpdatePayment (cancelUpdateBooking exCancelState 1)
        (some { id := 1, bookingId := some 1, amount := 100000
                status := .SUCCEEDED, stripePaymentIntentId := some "pi_1" }) ∧
    (findBooking (cancelUpdateBooking exCancelState 1).bookings 1).map
      Booking.status = some .CANCELLED ∧
    (findPayment (cancelUpdateBooking exCancelState 1).payments 1).map
      Payment.status = some .SUCCEEDED := by decide

/-- C4 amended: the payment-confirmation and webhook paths update Booking
and Payment inside one transaction with consistently paired statuses
(CONFIRMED↔SUCCEEDED, CANCELLED↔FAILED, PENDING↔PENDING); the
user-cancellation path instead performs the Booking update and the Payment
refund-mark as two independent writes — the intermediate state (CANCELLED
booking, SUCCEEDED payment not yet REFUNDED) is persistable — though when
it runs to completion the booking is CANCELLED and a SUCCEEDED payment is
marked REFUNDED. -/
theorem payment_booking_atomicity_amended :
    (∀ (s : DBState) (uid bid : Nat) (rs piId : String) (st : StripeStatus)
        (bst : BookingStatus) (pst : PaymentStatus),
      (paymentConfirm s uid bid rs piId st).1 = .ok bst pst →
      ((bst = .CONFIRMED ∧ pst = .SUCCEEDED) ∨
       (bst = .CANCELLED ∧ pst = .FAILED) ∨
       (bst = .PENDING ∧ pst = .PENDING))) ∧
    (∀ (s : DBState) (piId : String) (p : Payment) (bid : Nat),
      findPaymentByIntent s.payments piId = some p → p.bookingId = some bid →
      (stripeWebhook s (.paymentIntentSucceeded piId)).payments
          = updatePaymentStatus s.payments p.id .SUCCEEDED ∧
      (stripeWebhook s (.paymentIntentSucceeded piId)).bookings
          = updateBookingStatus s.bookings bid .CONFIRMED ∧
      (stripeWebhook s (.paymentIntentFailed piId)).payments
          = updatePaymentStatus s.payments p.id .FAILED ∧
      (stripeWebhook s (.paymentIntentFailed piId)).bookings
          = updateBookingStatus s.bookings bid .CANCELLED) ∧
    (∀ (s : DBState) (uid bid now : Nat) (b : Booking) (p : Payment),
      findBooking s.bookings bid = some b → b.userId = uid →
      b.status ≠ .CANCELLED → b.status ≠ .COMPLETED →
      ¬(b.startTime < now + 2) →
      b.paymentId.bind (findPayment s.payments) = some p →
      cancelBooking s uid bid now =
        (.ok, cancelUpdatePayment (cancelUpdateBooking s bid) (some p)) ∧
      (findBooking (cancelBooking s uid bid now).2.bookings bid).map
        Booking.status = some .CANCELLED ∧
      (p.status = .SUCCEEDED →
        (cancelBooking s uid bid now).2.payments
          = updatePaymentStatus (cancelUpdateBooking s bid).payments p.id
              .REFUNDED)) := by
  refine ⟨?_, ?_, ?_⟩
  · intro s uid bid rs piId st bst pst h
    unfold paymentConfirm at h
    split at h
    · simp at h
    · split at h
      · simp at h
      · split at h
        · simp at h
        · split at h
          · simp at h
          · split at h
            · simp at h
            · split at h
              · simp at h
              · cases st <;> simp_all
  · intro s piId p bid hp hbid
    refine ⟨?_, ?_, ?_, ?_⟩ <;> simp only [stripeWebhook, hp, hbid]
  · intro s uid bid now b p hfound huid hnc1 hnc2 hwin hpay
    have heq : cancelBooking s uid bid now =
        (.ok, cancelUpdatePayment (cancelUpdateBooking s bid) (some p)) := by
      simp [cancelBooking, hfound, huid, hnc1, hnc2, hwin, hpay]
    refine ⟨heq, ?_, ?_⟩
    · rw [heq]
      show (findBooking (cancelUpdatePayment (cancelUpdateBooking s bid)
          (some p)).bookings bid).map Booking.status = some .CANCELLED
      rw [cancelUpdatePayment_bookings]
      show (findBooking (updateBookingStatus s.bookings bid .CANCELLED)
          bid).map Booking.status = some .CANCELLED
      rw [findBooking_updateBookingStatus, hfound]
      rfl
    · intro hsucc
      rw [heq]
      show (cancelUpdatePayment (cancelUpdateBooking s bid) (some p)).payments
          = updatePaymentStatus (cancelUpdateBooking s bid).payments p.id
              .REFUNDED
      simp [cancelUpdatePayment, hsucc]

/-- C4 amended witness: the concrete cancellable booking of the example
state: the handler returns the composition of the two independent writes. -/
theorem payment_booking_atomicity_amended_witness :
    cancelBooking exCancelState 7 1 10 =
      (.ok, cancelUpdatePayment (cancelUpdateBooking exCancelState 1)
        (some { id := 1, bookingId := some 1, amount := 100000
                status := .SUCCEEDED
                stripePaymentIntentId := some "pi_1" })) := by
  exact (payment_booking_atomicity_amended.2.2 exCancelState 7 1 10
    { id := 1, userId := 7, courtId := 1, startTime := 100, endTime := 102
      status := .CONFIRMED, idempotencyKey := none, paymentId := some 1 }
    { id := 1, bookingId := some 1, amount := 100000
      status := .SUCCEEDED, stripePaymentIntentId := some "pi_1" }
    (by decide) (by decide) (by decide) (by decide) (by decide)
    (by decide)).1

/-- A successful `reserve` call is characterised by the found court: it
created exactly the `mkBooking`/`mkPayment` pair and committed it. -/
theorem reserve_created_eq (s : DBState) (req : ReserveRequest)
    (b : Booking) (p : Payment)
    (hcreated : (reserve s req).1 = .created b p) :
    ∃ court, findCourt s.courts req.courtId = some court ∧
      b = mkBooking s req (24 * req.date + req.startTime)
        (24 * req.date + req.startTime + req.duration) ∧
      p = mkPayment s req court ∧
      (reserve s req).2 = commitReserve s req court
        (24 * req.date + req.startTime)
        (24 * req.date + req.startTime + req.duration) := by
  have hfields : ¬(req.courtId = 0 ∨ req.duration = 0) := by
    intro hcontra
    have : reserve s req = (.failed .missingFields, s) := by
      unfold reserve; rw [if_pos hcontra]
    rw [this] at hcreated
    cases hcreated
  have hred : reserve s req = reserveTx s req (24 * req.date + req.startTime)
      (24 * req.date + req.startTime + req.duration) := by
    unfold reserve
    rw [if_neg hfields]
    cases hk : req.idempotencyKey with
    | none => rfl
    | some k =>
      cases hfind : findBookingByKey s.bookings k with
      | none => simp [hfind]
      | some b0 =>
        exfalso
        have : reserve s req = (.alreadyExists b0, s) := by
          unfold reserve; rw [if_neg hfields, hk]; simp [hfind]
        rw [this] at hcreated
        cases hcreated
  rcases reserveTx_cases s req (24 * req.date + req.startTime)
      (24 * req.date + req.startTime + req.duration) with
    ⟨_, e, hfail⟩ | ⟨court, hcourt, hconf, htx⟩
  · rw [hred, hfail] at hcreated
    cases hcreated
  · rw [hred, htx] at hcreated
    injection hcreated with h1 h2
    exact ⟨court, hcourt, h1.symm, h2.symm, by rw [hred, htx]⟩

/-- Mapping a row transformation that keeps amounts keeps the amount list. -/
theorem map_amount_of_preserve (l : List Payment) (f : Payment → Payment)
    (h : ∀ q, (f q).amount = q.amount) :
    (l.map f).map Payment.amount = l.map Payment.amount := by
  rw [List.map_map]
  apply List.map_congr_left
  intro q _
  exact h q

/-- A payment status update leaves every stored amount unchanged. -/
theorem map_amount_updatePaymentStatus (ps : List Payment) (pid : Nat)
    (st : PaymentStatus) :
    (updatePaymentStatus ps pid st).map Payment.amount
      = ps.map Payment.amount := by
  apply map_amount_of_preserve
  intro q
  dsimp only []
  split <;> rfl

/-- The cancellation handler's payment write leaves every amount unchanged. -/
theorem cancelUpdatePayment_amounts (s : DBState) (x : Option Payment) :
    ((cancelUpdatePayment s x).payments).map Payment.amount
      = s.payments.map Payment.amount := by
  unfold cancelUpdatePayment
  split
  · split
    · exact map_amount_updatePaymentStatus _ _ _
    · rfl
  · rfl

/-- C5 counterexample: the Payment amount is NOT a snapshot. Booking
`[10,12)` at ₹500/h creates a payment of 100000 paisa; raising the court's
price to ₹600 and then proceeding with payment (create-payment-intent)
overwrites the stored amount with 120000. -/
theorem payment_amount_not_snapshot :
    ((findPayment exPendingState.payments 1).map Payment.amount
      = some 100000) ∧
    ((findPayment (createPaymentIntent
        (updateCourtPrice exPendingState 1 600) 1 "pi_9").payments 1).map
      Payment.amount = some 120000) := by decide

/-- C5 amended: the Payment amount is computed at booking-creation time as
pricePerHour × duration × 100 paisa, and the status-only operations
(payment confirmation, webhook, cancellation) never alter any stored
amount; but `create-payment-intent` — the step that precedes every payment
— RECOMPUTES the amount from the court's CURRENT pricePerHour and
overwrites the Payment row, so a price change before payment does change
the existing Payment's amount. -/
theorem payment_amount_amended :
    (∀ (s : DBState) (req : ReserveRequest) (b : Booking) (p : Payment)
        (court : Court),
      findCourt s.courts req.courtId = some court →
      (reserve s req).1 = .created b p →
      p.amount = court.pricePerHour * req.duration * 100) ∧
    (∀ (s : DBState) (uid bid : Nat) (rs piId : String) (st : StripeStatus),
      ((paymentConfirm s uid bid rs piId st).2.payments.map Payment.amount)
        = s.payments.map Payment.amount) ∧
    (∀ (s : DBState) (ev : StripeEvent),
      ((stripeWebhook s ev).payments.map Payment.amount)
        = s.payments.map Payment.amount) ∧
    (∀ (s : DBState) (uid bid now : Nat),
      (((cancelBooking s uid bid now).2).payments.map Payment.amount)
        = s.payments.map Payment.amount) ∧
    (∀ (s : DBState) (bid : Nat) (piId : String) (b : Booking) (p : Payment)
        (court : Court),
      findBooking s.bookings bid = some b →
      b.paymentId.bind (findPayment s.payments) = some p →
      p.status ≠ .SUCCEEDED →
      findCourt s.courts b.courtId = some court →
      ((createPaymentIntent s bid piId).payments.map Payment.amount)
        = s.payments.map (fun q =>
            if q.id = p.id then
              court.pricePerHour * (b.endTime - b.startTime) * 100
            else q.amount)) := by
  refine ⟨?_, ?_, ?_, ?_, ?_⟩
  · intro s req b p court hcourt hcreated
    rcases reserve_created_eq s req b p hcreated with
      ⟨court', hcourt', _, hp, _⟩
    rw [hcourt'] at hcourt
    injection hcourt with hcc
    subst hcc
    rw [hp]
    rfl
  · intro s uid bid rs piId st
    unfold paymentConfirm
    split
    · rfl
    · split
      · rfl
      · split
        · rfl
        · split
          · rfl
          · split
            · rfl
            · split
              · rfl
              · refine Eq.trans (map_amount_of_preserve _ _ ?_)
                  (map_amount_updatePaymentStatus _ _ _)
                intro q
                dsimp only []
                split <;> rfl
  · intro s ev
    cases ev with
    | paymentIntentSucceeded piId =>
      simp only [stripeWebhook]
      split
      · rfl
      · split
        · exact map_amount_updatePaymentStatus _ _ _
        · exact map_amount_updatePaymentStatus _ _ _
    | paymentIntentFailed piId =>
      simp only [stripeWebhook]
      split
      · rfl
      · split
        · exact map_amount_updatePaymentStatus _ _ _
        · exact map_amount_updatePaymentStatus _ _ _
    | chargeRefunded piId =>
      simp only [stripeWebhook]
      split
      · rfl
      · exact map_amount_updatePaymentStatus _ _ _
  · intro s uid bid now
    unfold cancelBooking
    split
    · rfl
    · split
      · rfl
      · split
        · rfl
        · split
          · rfl
          · split
            · rfl
            · exact cancelUpdatePayment_amounts _ _
  · intro s bid piId b p court hfound hpay hpst hcourt
    simp only [createPaymentIntent, hfound, hpay, hpst, hcourt]
    rw [if_neg not_false]
    rw [List.map_map]
    apply List.map_congr_left
    intro q _
    by_cases h : q.id = p.id <;> simp [h]

/-- C5 amended witness: the creation-time amount of the example booking and
the webhook's amount preservation at the completed example state. -/
theorem payment_amount_amended_witness :
    (mkPayment exState (exReq 10 2) exCourt).amount
        = exCourt.pricePerHour * 2 * 100 ∧
    ((stripeWebhook exCompletedState (.chargeRefunded "pi_1")).payments.map
        Payment.amount) = exCompletedState.payments.map Payment.amount := by
  constructor
  · exact payment_amount_amended.1 exState (exReq 10 2)
      (mkBooking exState (exReq 10 2) 10 12)
      (mkPayment exState (exReq 10 2) exCourt) exCourt
      (by decide) (by decide)
  · exact payment_amount_amended.2.2.1 exCompletedState (.chargeRefunded "pi_1")

/-- C6 counterexample: a reservation on a court of an unapproved venue is
rejected with HTTP 500 — not the claimed 400/403 — and the 500 body is the
raw internal error message rather than a generic one, so this business-rule
violation IS surfaced as a generic failure with internal detail. -/
theorem error_mapping_counterexample :
    (reserve exUnapprovedState (exReq 10 2)).1 = .failed .venueNotApproved ∧
    httpStatus .venueNotApproved = 500 ∧
    ¬(httpStatus .venueNotApproved = 400 ∨ httpStatus .venueNotApproved = 403) ∧
    catchBody (BookingError.message .venueNotApproved)
      = "Venue is not approved for bookings" := by decide

/-- C6 amended: the catch block maps by substring matching on the thrown
message: "Time slot conflict" → 409, "Unique constraint" → 409, "timeout"
→ 408; missing input is rejected with 400 before the transaction; every
other thrown error — court not found, unapproved venue, outside operating
hours — becomes a 500 whose body is the error's own message. -/
theorem error_mapping_amended :
    httpStatus .missingFields = 400 ∧
    httpStatus .slotConflict = 409 ∧
    httpStatus .courtNotFound = 500 ∧
    httpStatus .venueNotApproved = 500 ∧
    httpStatus .outsideOperatingHours = 500 ∧
    (∀ e : BookingError, httpStatus e = 500 →
      catchBody e.message = e.message) ∧
    (∀ msg : String, strIncludes msg "Unique constraint" = true →
      strIncludes msg "Time slot conflict" = false →
      catchStatus msg = 409) ∧
    (∀ msg : String, strIncludes msg "timeout" = true →
      strIncludes msg "Time slot conflict" = false →
      strIncludes msg "Unique constraint" = false →
      catchStatus msg = 408) := by
  refine ⟨by decide, by decide, by decide, by decide, by decide, ?_, ?_, ?_⟩
  · intro e h
    revert h
    cases e <;> decide
  · intro msg h1 h2
    simp [catchStatus, h1, h2]
  · intro msg h1 h2 h3
    simp [catchStatus, h1, h2, h3]

/-- C6 amended witness: a Prisma-style transaction-timeout message maps to
408. -/
theorem error_mapping_amended_witness :
    catchStatus "Transaction timeout after 10000 ms" = 408 := by
  exact error_mapping_amended.2.2.2.2.2.2.2
    "Transaction timeout after 10000 ms" (by decide) (by decide) (by decide)

/-- Evaluation of the transaction when the operating-hours check fails. -/
theorem reserveTx_hours_pos (s : DBState) (req : ReserveRequest)
    (bStart bEnd : Nat) (court : Court)
    (hcourt : findCourt s.courts req.courtId = some court)
    (hconf : s.bookings.find? (conflictsWith req.courtId bStart bEnd) = none)
    (happr : court.venueApproved = true)
    (hC : getHours bStart < court.openTime ∨
      court.closeTime < getHours bEnd) :
    reserveTx s req bStart bEnd = (.failed .outsideOperatingHours, s) := by
  simp only [reserveTx, hcourt, hconf]
  simp [happr, hC]

/-- Evaluation of the transaction when every check passes. -/
theorem reserveTx_hours_neg (s : DBState) (req : ReserveRequest)
    (bStart bEnd : Nat) (court : Court)
    (hcourt : findCourt s.courts req.courtId = some court)
    (hconf : s.bookings.find? (conflictsWith req.courtId bStart bEnd) = none)
    (happr : court.venueApproved = true)
    (hC : ¬(getHours bStart < court.openTime ∨
      court.closeTime < getHours bEnd)) :
    reserveTx s req bStart bEnd =
      (.created (mkBooking s req bStart bEnd) (mkPayment s req court),
        commitReserve s req court bStart bEnd) := by
  simp only [reserveTx, hcourt, hconf]
  simp [happr, hC]

/-- C7: with the court found, venue approved, fields present, no
idempotency hit and no conflicting booking, `reserve` succeeds exactly when
`startHour ≥ openTime` and the end timestamp's hour-of-day (JS
`Date.getHours()`) is ≤ closeTime; on a court open 6-22, `[21,22)` is
accepted while `[22,23)` and `[5,6)` are rejected as outside operating
hours. -/
theorem reserve_operating_hours (s : DBState) (req : ReserveRequest)
    (court : Court)
    (hfields : ¬(req.courtId = 0 ∨ req.duration = 0))
    (hkey : ∀ k, req.idempotencyKey = some k →
      findBookingByKey s.bookings k = none)
    (hcourt : findCourt s.courts req.courtId = some court)
    (hconf : s.bookings.find? (conflictsWith req.courtId
      (24 * req.date + req.startTime)
      (24 * req.date + req.startTime + req.duration)) = none)
    (happr : court.venueApproved = true) :
    ((reserve s req).1.isCreated = true ↔
      (court.openTime ≤ getHours (24 * req.date + req.startTime) ∧
        getHours (24 * req.date + req.startTime + req.duration)
          ≤ court.closeTime)) ∧
    (reserve exState (exReq 21 1)).1.isCreated = true ∧
    (reserve exState (exReq 22 1)).1 = .failed .outsideOperatingHours ∧
    (reserve exState (exReq 5 1)).1 = .failed .outsideOperatingHours := by
  refine ⟨?_, by decide, by decide, by decide⟩
  constructor
  · intro h
    by_contra hbad
    have hC : getHours (24 * req.date + req.startTime) < court.openTime ∨
        court.closeTime
          < getHours (24 * req.date + req.startTime + req.duration) := by
      by_contra hC
      exact hbad (by constructor <;> omega)
    rw [reserve_eq_reserveTx s req hfields hkey,
      reserveTx_hours_pos s req _ _ court hcourt hconf happr hC] at h
    simp [ReserveResult.isCreated] at h
  · intro hok
    have hC : ¬(getHours (24 * req.date + req.startTime) < court.openTime ∨
        court.closeTime
          < getHours (24 * req.date + req.startTime + req.duration)) := by
      rcases hok with ⟨h1, h2⟩
      intro hC
      rcases hC with h | h <;> omega
    rw [reserve_eq_reserveTx s req hfields hkey,
      reserveTx_hours_neg s req _ _ court hcourt hconf happr hC]
    rfl

/-- C7 witness: the accepted boundary slot `[21,22)` on the 6-22 court. -/
theorem reserve_operating_hours_witness :
    (reserve exState (exReq 21 1)).1.isCreated = true := by
  exact (reserve_operating_hours exState (exReq 21 1) exCourt (by decide)
    (fun k hk => by simp [exReq] at hk) (by decide) (by decide)
    (by decide)).1.mpr (by decide)

/-- C8 counterexample: the server-side handler never checks the [1,8]
bound: a request for 9 hours (start 6 on the court open 6-22, no
conflicts) is accepted and a booking is created. The zod schema enforcing
[1,8] lives only in the client-side booking form. -/
theorem reserve_duration_not_validated :
    (9 > 8) ∧ (reserve exState (exReq 6 9)).1.isCreated = true := by decide

/-- C8 amended: the server boundary rejects only a missing/zero duration
(JS falsiness): such a request fails with missingFields/400 before any row
is written; the [1,8] policy bound is enforced only client-side, and the
server accepts durations above 8. -/
theorem reserve_duration_amended (s : DBState) (req : ReserveRequest)
    (h : req.duration = 0) :
    reserve s req = (.failed .missingFields, s) ∧
    httpStatus .missingFields = 400 := by
  constructor
  · unfold reserve
    rw [if_pos (Or.inr h)]
  · rfl

/-- C8 amended witness: duration 0 in the example state. -/
theorem reserve_duration_amended_witness :
    reserve exState (exReq 10 0) = (.failed .missingFields, exState) ∧
    httpStatus .missingFields = 400 :=
  reserve_duration_amended exState (exReq 10 0) (by decide)

/-- One sweep pass makes every row a fixed point of the pass. -/
theorem sweepOne_fixpoint (now : Nat) (b : Booking) :
    (if (if b.status = .CONFIRMED ∧ b.endTime < now then
          { b with status := BookingStatus.COMPLETED } else b).status
            = .CONFIRMED ∧
        (if b.status = .CONFIRMED ∧ b.endTime < now then
          { b with status := BookingStatus.COMPLETED } else b).endTime < now
      then
        { (if b.status = .CONFIRMED ∧ b.endTime < now then
            { b with status := BookingStatus.COMPLETED } else b) with
          status := BookingStatus.COMPLETED }
      else
        (if b.status = .CONFIRMED ∧ b.endTime < now then
          { b with status := BookingStatus.COMPLETED } else b))
    = (if b.status = .CONFIRMED ∧ b.endTime < now then
        { b with status := BookingStatus.COMPLETED } else b) := by
  by_cases h : b.status = .CONFIRMED ∧ b.endTime < now
  · rw [if_pos h, if_neg]
    intro hc
    rcases hc with ⟨hc1, _⟩
    simp at hc1
  · rw [if_neg h, if_neg h]

/-- C9: the completion sweep updates exactly the CONFIRMED rows whose end
is in the past (row `i` becomes COMPLETED iff it was CONFIRMED with
`endTime < now`; every other row and the courts and payments tables are
unchanged), and it is idempotent: an immediate second run returns the
same state and reports zero touched rows. -/
theorem completionSweep_correct :
    (∀ (s : DBState) (now : Nat),
      ((completionSweep s now).1).courts = s.courts ∧
      ((completionSweep s now).1).payments = s.payments) ∧
    (∀ (s : DBState) (now i : Nat),
      ((completionSweep s now).1).bookings[i]? =
        (s.bookings[i]?).map (fun b =>
          if b.status = .CONFIRMED ∧ b.endTime < now then
            { b with status := .COMPLETED }
          else b)) ∧
    (∀ (s : DBState) (now : Nat),
      completionSweep ((completionSweep s now).1) now
        = ((completionSweep s now).1, 0)) := by
  refine ⟨fun s now => ⟨rfl, rfl⟩, ?_, ?_⟩
  · intro s now i
    simp [completionSweep, List.getElem?_map]
  · intro s now
    simp only [completionSweep, Prod.mk.injEq]
    constructor
    · simp only [DBState.mk.injEq, true_and, and_true]
      rw [List.map_map]
      apply List.map_congr_left
      intro b _
      exact sweepOne_fixpoint now b
    · rw [List.length_eq_zero]
      rw [List.filter_eq_nil_iff]
      intro b hb
      rcases List.mem_map.mp hb with ⟨b0, _, hb0⟩
      intro hmatch
      rw [← hb0] at hmatch
      revert hmatch
      by_cases h : b0.status = .CONFIRMED ∧ b0.endTime < now
      · rw [if_pos h]
        simp
      · rw [if_neg h]
        simp [h]

/-- C10 (implicit wrap bug, confirmed): on the example court (open 6-22,
no existing bookings), the request start 20h, duration 8h has
20 + 8 = 28 > 22 — the real end is past closing — yet the end timestamp's
hour-of-day wraps to (20+8) mod 24 = 4 ≤ 22, the operating-hours check
passes and `reserve` succeeds, creating the booking. -/
theorem reserve_end_hour_wraps :
    20 + 8 > 22 ∧
    getHours (24 * 0 + 20 + 8) = 4 ∧
    (reserve exState (exReq 20 8)).1.isCreated = true ∧
    (reserve exState (exReq 20 8)).2.bookings.length = 1 := by decide

end SportsBook
